import Mathlib

/-!
Verification of the medinexus-connect proximity medicine search.

The front-end search page (its zod validation schema, change handler and
submit handler) is embedded from the source.  The search back-end
(haversine distance, matcher, ranker, orchestrator) is not part of the
repository's sources, so it is modelled from the specification.
JavaScript numbers are modelled as rationals (reals for the haversine
calculator); a JS `NaN` produced by `parseFloat` is modelled as `none`.
-/

namespace MediNexus

namespace SearchPage

/-- A raw, loosely typed value of one form field as seen by the zod
schema: a string, a numeric value, or JavaScript `NaN`. -/
inductive RawValue where
  | str (s : String)
  | num (v : ℚ)
  | nan
deriving DecidableEq

/-- The four raw fields fed to `searchSchema.parse`. -/
structure RawSearchInput where
  medicine_name : RawValue
  latitude : RawValue
  longitude : RawValue
  max_distance : RawValue
deriving DecidableEq

/-- Rule `z.string().min(1, "Medicine name is required")` from
`searchSchema`. -/
def checkMedicineName : RawValue → Option String
  | .str s => if 1 ≤ s.length then none else some ("Medicine name is required")
  | .num _ => some ("Expected string, received number")
  | .nan => some ("Expected string, received nan")

/-- Rule `z.number().min(-90, …).max(90, …)` for the latitude field. -/
def checkLatitude : RawValue → Option String
  | .num v =>
      if v < -90 then some ("Latitude must be between -90 and 90")
      else if 90 < v then some ("Latitude must be between -90 and 90")
      else none
  | .str _ => some ("Expected number, received string")
  | .nan => some ("Expected number, received nan")

/-- Rule `z.number().min(-180, …).max(180, …)` for the longitude field. -/
def checkLongitude : RawValue → Option String
  | .num v =>
      if v < -180 then some ("Longitude must be between -180 and 180")
      else if 180 < v then some ("Longitude must be between -180 and 180")
      else none
  | .str _ => some ("Expected number, received string")
  | .nan => some ("Expected number, received nan")

/-- Rule `z.number().positive("Distance must be greater than zero")` for
the max-distance field. -/
def checkMaxDistance : RawValue → Option String
  | .num v =>
      if 0 < v then none else some ("Distance must be greater than zero")
  | .str _ => some ("Expected number, received string")
  | .nan => some ("Expected number, received nan")

/-- Per-field error map built by `validateForm` from the zod issues
(`newErrors[err.path[0]] = err.message`). -/
structure FieldErrors where
  medicine_name : Option String
  latitude : Option String
  longitude : Option String
  max_distance : Option String
deriving DecidableEq

/-- zod validates the four object fields independently and collects every
issue; the error map holds each field's own issue. -/
def collectErrors (r : RawSearchInput) : FieldErrors :=
  { medicine_name := checkMedicineName r.medicine_name
    latitude := checkLatitude r.latitude
    longitude := checkLongitude r.longitude
    max_distance := checkMaxDistance r.max_distance }

/-- The `validateForm` handler: parse with `searchSchema`; on success return `true`
with an empty error map, on failure return `false` with the collected
per-field errors. -/
def validateForm (r : RawSearchInput) : Bool × FieldErrors :=
  let e := collectErrors r
  (e.medicine_name.isNone && e.latitude.isNone &&
    e.longitude.isNone && e.max_distance.isNone, e)

/-- The typed `searchParams` component state (`SearchParams` in the page). -/
structure SearchParams where
  medicine_name : String
  latitude : ℚ
  longitude : ℚ
  max_distance : ℚ
deriving DecidableEq

/-- The raw view of the typed state as it reaches `searchSchema.parse`. -/
def toRaw (p : SearchParams) : RawSearchInput :=
  { medicine_name := .str p.medicine_name
    latitude := .num p.latitude
    longitude := .num p.longitude
    max_distance := .num p.max_distance }

/-- The three numeric form fields handled by `handleChange`'s
`parseFloat` branch. -/
inductive NumField where
  | latitude
  | longitude
  | max_distance
deriving DecidableEq

/-- JavaScript `x || y` on a number `x` that may be `NaN` (modelled as
`none`): `NaN` and `0` are falsy, every other number is returned as is. -/
def jsOr (x : Option ℚ) (y : ℚ) : ℚ :=
  match x with
  | none => y
  | some v => if v = 0 then y else v

/-- The `handleChange` handler on a numeric field: the stored value is
`parseFloat(value) || 0`, with `parsed` the `parseFloat` outcome. -/
def applyNumericChange (prev : SearchParams) (f : NumField)
    (parsed : Option ℚ) : SearchParams :=
  let v := jsOr parsed 0
  match f with
  | .latitude => { prev with latitude := v }
  | .longitude => { prev with longitude := v }
  | .max_distance => { prev with max_distance := v }

/-- Read one numeric field of the component state. -/
def getNum (p : SearchParams) : NumField → ℚ
  | .latitude => p.latitude
  | .longitude => p.longitude
  | .max_distance => p.max_distance

/-- A medicine line item as the search page receives it (`Medicine`
interface of the page). -/
structure MedicineHit where
  medicineId : String
  name : String
  manufacturer : String
  batchNumber : String
  expiryDate : String
  price : ℚ
  stock : ℚ
deriving DecidableEq

/-- A store row of the search response (`Store` interface of the page,
including the computed `distance`). -/
structure StoreHit where
  storeId : String
  name : String
  address : String
  contactNumber : String
  latitude : ℚ
  longitude : ℚ
  medicines : List MedicineHit
  distance : ℚ
deriving DecidableEq

/-- The component state touched by `handleSearch`. -/
structure UIState where
  results : List StoreHit
  hasSearched : Bool
  searching : Bool
  errors : FieldErrors
deriving DecidableEq

/-- The `handleSearch` handler: validate, and only when validation succeeds issue the
`/search` request (second component: the list of requests issued) and
update the result state from the response; on validation failure only the
error map changes and no request is issued. -/
def handleSearch (st : UIState) (params : SearchParams)
    (resp : Except String (List StoreHit)) : UIState × List SearchParams :=
  let v := validateForm (toRaw params)
  if v.1 then
    match resp with
    | .ok data =>
        ({ st with
            errors := v.2
            hasSearched := true
            searching := false
            results := data }, [params])
    | .error _ =>
        ({ st with
            errors := v.2
            hasSearched := true
            searching := false
            results := [] }, [params])
  else
    ({ st with errors := v.2 }, [])

end SearchPage

end MediNexus

namespace MediNexus

namespace SearchPage

/-- C1: query validation accepts latitude iff a number in [-90, 90],
longitude iff a number in [-180, 180], and max-distance iff a number
strictly greater than zero; each rejection stores a message in the
field's own error slot. -/
theorem validate_numeric_fields_iff (r : RawSearchInput) :
    ((validateForm r).2.latitude = none ↔
      ∃ v : ℚ, r.latitude = .num v ∧ -90 ≤ v ∧ v ≤ 90) ∧
    ((validateForm r).2.longitude = none ↔
      ∃ v : ℚ, r.longitude = .num v ∧ -180 ≤ v ∧ v ≤ 180) ∧
    ((validateForm r).2.max_distance = none ↔
      ∃ v : ℚ, r.max_distance = .num v ∧ 0 < v) := by
  refine ⟨?_, ?_, ?_⟩
  · show checkLatitude r.latitude = none ↔ _
    cases h : r.latitude with
    | str s => simp [checkLatitude]
    | nan => simp [checkLatitude]
    | num v =>
        simp only [checkLatitude]
        constructor
        · intro hv
          refine ⟨v, rfl, ?_, ?_⟩
          · by_contra hc
            rw [if_pos (not_le.mp hc)] at hv
            exact Option.noConfusion hv
          · by_contra hc
            have h90 := not_le.mp hc
            rw [if_neg (by linarith), if_pos h90] at hv
            exact Option.noConfusion hv
        · rintro ⟨w, hw, h1, h2⟩
          cases hw
          rw [if_neg (by linarith), if_neg (by linarith)]
  · show checkLongitude r.longitude = none ↔ _
    cases h : r.longitude with
    | str s => simp [checkLongitude]
    | nan => simp [checkLongitude]
    | num v =>
        simp only [checkLongitude]
        constructor
        · intro hv
          refine ⟨v, rfl, ?_, ?_⟩
          · by_contra hc
            rw [if_pos (not_le.mp hc)] at hv
            exact Option.noConfusion hv
          · by_contra hc
            have h180 := not_le.mp hc
            rw [if_neg (by linarith), if_pos h180] at hv
            exact Option.noConfusion hv
        · rintro ⟨w, hw, h1, h2⟩
          cases hw
          rw [if_neg (by linarith), if_neg (by linarith)]
  · show checkMaxDistance r.max_distance = none ↔ _
    cases h : r.max_distance with
    | str s => simp [checkMaxDistance]
    | nan => simp [checkMaxDistance]
    | num v =>
        simp only [checkMaxDistance]
        constructor
        · intro hv
          refine ⟨v, rfl, ?_⟩
          by_contra hc
          rw [if_neg hc] at hv
          exact Option.noConfusion hv
        · rintro ⟨w, hw, h1⟩
          cases hw
          rw [if_pos h1]

/-- C2 counterexample: the schema has no trim — a medicine name consisting
of a single whitespace character is accepted by validation even though it
is empty after trimming, contradicting the claim that such input is
rejected. -/
theorem whitespace_medicine_name_accepted :
    (validateForm ⟨.str (" "), .num 0, .num 0, .num 5000⟩).2.medicine_name
      = none ∧
    " ".data.all (fun c => c.isWhitespace) = true := by
  exact ⟨rfl, rfl⟩

/-- C2 (amended): validation rejects the medicineName field iff the raw
string is literally empty (length 0, no trimming); whitespace-only strings
are accepted. -/
theorem medicine_name_rejected_iff_empty
    (s : String) (lat lon md : RawValue) :
    (validateForm ⟨.str s, lat, lon, md⟩).2.medicine_name = none ↔
      s ≠ "" := by
  show checkMedicineName (.str s) = none ↔ s ≠ ""
  simp only [checkMedicineName]
  constructor
  · intro hv hempty
    subst hempty
    simp at hv
  · intro hne
    rw [if_pos ?_]
    rcases s with ⟨data⟩
    cases data with
    | nil => exact absurd rfl hne
    | cons c cs => simp [String.length]

/-- C3: validation is not fail-fast — each field's violation is reported
in the combined outcome regardless of the other fields, and the input with
all four fields invalid (empty name, latitude 91, longitude -181,
max-distance 0) yields an error for every field in one outcome. -/
theorem validateForm_reports_every_invalid_field (r : RawSearchInput) :
    (checkMedicineName r.medicine_name ≠ none →
      (validateForm r).2.medicine_name ≠ none) ∧
    (checkLatitude r.latitude ≠ none → (validateForm r).2.latitude ≠ none) ∧
    (checkLongitude r.longitude ≠ none →
      (validateForm r).2.longitude ≠ none) ∧
    (checkMaxDistance r.max_distance ≠ none →
      (validateForm r).2.max_distance ≠ none) ∧
    ((validateForm ⟨.str (""), .num 91, .num (-181), .num 0⟩).1 = false ∧
      (validateForm ⟨.str (""), .num 91, .num (-181), .num 0⟩).2.medicine_name
        ≠ none ∧
      (validateForm ⟨.str (""), .num 91, .num (-181), .num 0⟩).2.latitude
        ≠ none ∧
      (validateForm ⟨.str (""), .num 91, .num (-181), .num 0⟩).2.longitude
        ≠ none ∧
      (validateForm ⟨.str (""), .num 91, .num (-181), .num 0⟩).2.max_distance
        ≠ none) := by
  refine ⟨fun h => h, fun h => h, fun h => h, fun h => h, ?_⟩
  refine ⟨by decide, by decide, by decide, by decide, by decide⟩

/-- C3 witness: applying the reporting theorem at the all-four-invalid
input. -/
theorem validateForm_reports_every_invalid_field_witness :
    (validateForm ⟨.str (""), .num 91, .num (-181), .num 0⟩).2.medicine_name
      ≠ none ∧
    (validateForm ⟨.str (""), .num 91, .num (-181), .num 0⟩).2.latitude
      ≠ none ∧
    (validateForm ⟨.str (""), .num 91, .num (-181), .num 0⟩).2.longitude
      ≠ none ∧
    (validateForm ⟨.str (""), .num 91, .num (-181), .num 0⟩).2.max_distance
      ≠ none := by
  have h := validateForm_reports_every_invalid_field
    ⟨.str (""), .num 91, .num (-181), .num 0⟩
  exact ⟨h.1 (by decide), h.2.1 (by decide), h.2.2.1 (by decide),
    h.2.2.2.1 (by decide)⟩

end SearchPage

namespace Core

/-- Modelled from the spec: the search back-end (data model of §3) is not
among the repository sources. A medicine line item. -/
structure Medicine where
  id : String
  name : String
  manufacturer : String
  batchNumber : String
  expiryDate : String
  price : ℚ
  stock : ℕ
deriving DecidableEq

/-- Modelled from the spec: a geographic coordinate (§3). -/
structure Coordinate where
  latitude : ℚ
  longitude : ℚ
deriving DecidableEq

/-- Modelled from the spec: a store with its owned medicine list (§3). -/
structure Store where
  id : String
  name : String
  address : String
  contactNumber : String
  location : Coordinate
  medicines : List Medicine
deriving DecidableEq

/-- Modelled from the spec: a validated search query (§3). -/
structure SearchQuery where
  medicineName : String
  origin : Coordinate
  maxDistanceMeters : ℚ
deriving DecidableEq

/-- Modelled from the spec: one search result (§3). -/
structure SearchResult where
  store : Store
  matchedMedicines : List Medicine
  distanceMeters : ℚ
deriving DecidableEq

/-- ASCII lowercase of a string, character by character. -/
def lowerStr (s : String) : String :=
  ⟨s.data.map Char.toLower⟩

/-- Whether `needle` occurs as a contiguous substring of `hay`. -/
def containsSub (hay needle : String) : Bool :=
  (List.range (hay.data.length + 1)).any
    (fun i => needle.data.isPrefixOf (hay.data.drop i))

/-- Modelled from the spec: the Medicine Matcher policy (§4.3) — the
back-end matcher is not among the repository sources. A medicine matches
when its name contains the query name as a case-insensitive substring. -/
def medicineMatches (queryName : String) (m : Medicine) : Bool :=
  containsSub (lowerStr m.name) (lowerStr queryName)

/-- Modelled from the spec: the Medicine Matcher (§4.3) applied to one
store, preserving inventory order. -/
def matchedMedicines (q : SearchQuery) (s : Store) : List Medicine :=
  s.medicines.filter (fun m => medicineMatches q.medicineName m)

/-- Ranking relation: ascending `distanceMeters`. -/
def byDistance (a b : SearchResult) : Prop :=
  a.distanceMeters ≤ b.distanceMeters

instance : DecidableRel byDistance := fun a b =>
  inferInstanceAs (Decidable (a.distanceMeters ≤ b.distanceMeters))

instance : IsTotal SearchResult byDistance :=
  ⟨fun a b => le_total a.distanceMeters b.distanceMeters⟩

instance : IsTrans SearchResult byDistance :=
  ⟨fun _ _ _ hab hbc => le_trans hab hbc⟩

/-- Modelled from the spec: the Search Orchestrator's per-store pass
(§4.5, steps 1-5) — the back-end orchestrator is not among the repository
sources. The distance calculator is an explicit parameter (§4.2
component). -/
def collectResults (dist : Coordinate → Coordinate → ℚ) (q : SearchQuery)
    (catalog : List Store) : List SearchResult :=
  catalog.filterMap (fun s =>
    let d := dist q.origin s.location
    if q.maxDistanceMeters < d then none
    else
      let matched := matchedMedicines q s
      if matched.isEmpty then none
      else some ⟨s, matched, d⟩)

/-- Modelled from the spec: the Result Ranker (§4.4) composed with the
orchestrator — a stable sort by ascending distance over the collected
results. -/
def search (dist : Coordinate → Coordinate → ℚ) (q : SearchQuery)
    (catalog : List Store) : List SearchResult :=
  List.insertionSort byDistance (collectResults dist q catalog)

end Core

namespace SearchPage

/-- C9: when `parseFloat` yields `NaN` (modelled as `none`), the change
handler stores `0` in the numeric field; a non-numeric latitude or
longitude therefore passes validation as the coordinate `0`, while a
non-numeric max-distance is rejected by the positivity rule (with its
positivity message, not a type error). -/
theorem nan_input_stored_as_zero (prev : SearchParams) (f : NumField) :
    getNum (applyNumericChange prev f none) f = 0 ∧
    (validateForm (toRaw (applyNumericChange prev NumField.latitude none))).2.latitude
      = none ∧
    (validateForm (toRaw (applyNumericChange prev NumField.longitude none))).2.longitude
      = none ∧
    (validateForm (toRaw (applyNumericChange prev NumField.max_distance none))).2.max_distance
      = some ("Distance must be greater than zero") := by
  refine ⟨?_, rfl, rfl, rfl⟩
  cases f <;> rfl

/-- C4: when validation fails, `handleSearch` returns before issuing the
`/search` request: no request is sent and the result state is untouched. -/
theorem search_not_executed_on_invalid (st : UIState) (params : SearchParams)
    (resp : Except String (List StoreHit))
    (h : (validateForm (toRaw params)).1 = false) :
    (handleSearch st params resp).2 = [] ∧
    (handleSearch st params resp).1.results = st.results ∧
    (handleSearch st params resp).1.hasSearched = st.hasSearched := by
  simp [handleSearch, h]

/-- C4 witness: a submission with an empty medicine name issues no request
and leaves the results untouched. -/
theorem search_not_executed_on_invalid_witness :
    (handleSearch ⟨[], false, false, ⟨none, none, none, none⟩⟩
      ⟨"", 0, 0, 5000⟩ (.ok [])).2 = [] ∧
    (handleSearch ⟨[], false, false, ⟨none, none, none, none⟩⟩
      ⟨"", 0, 0, 5000⟩ (.ok [])).1.results
      = (⟨[], false, false, ⟨none, none, none, none⟩⟩ : UIState).results ∧
    (handleSearch ⟨[], false, false, ⟨none, none, none, none⟩⟩
      ⟨"", 0, 0, 5000⟩ (.ok [])).1.hasSearched
      = (⟨[], false, false, ⟨none, none, none, none⟩⟩ : UIState).hasSearched :=
  search_not_executed_on_invalid _ _ _ (by decide)

end SearchPage

namespace Core

/-- C8: a medicine is matched for a store iff it belongs to the store's
inventory and its name contains the query name as a case-insensitive
substring; the match predicate ignores stock level and expiry date, and
searching "aspirin" matches a medicine named "Aspirin 500mg". -/
theorem matched_iff_ci_substring (q : SearchQuery) (s : Store)
    (m : Medicine) :
    (m ∈ matchedMedicines q s ↔
      m ∈ s.medicines ∧
        containsSub (lowerStr m.name) (lowerStr q.medicineName) = true) ∧
    (∀ (stock2 : ℕ) (expiry2 : String),
      medicineMatches q.medicineName
          { m with stock := stock2, expiryDate := expiry2 } =
        medicineMatches q.medicineName m) ∧
    medicineMatches ("aspirin")
      ⟨"m1", "Aspirin 500mg", "", "", "", 0, 0⟩ = true := by
  refine ⟨?_, fun _ _ => rfl, by decide⟩
  simp [matchedMedicines, medicineMatches, List.mem_filter]

/-- C6: every result of a search is within the query radius, has a
non-empty matched list, originates from a catalog store, and its matched
medicines form a sublist of that store's inventory. -/
theorem search_result_invariants (dist : Coordinate → Coordinate → ℚ)
    (q : SearchQuery) (catalog : List Store) (r : SearchResult)
    (hr : r ∈ search dist q catalog) :
    r.distanceMeters ≤ q.maxDistanceMeters ∧
    r.matchedMedicines ≠ [] ∧
    r.store ∈ catalog ∧
    r.matchedMedicines ⊆ r.store.medicines := by
  rw [search, List.mem_insertionSort] at hr
  obtain ⟨s, hs, hf⟩ := List.mem_filterMap.mp hr
  dsimp only at hf
  split_ifs at hf with hd hm
  cases Option.some.inj hf
  refine ⟨not_lt.mp hd, ?_, hs, ?_⟩
  · intro hnil
    have hnil2 : matchedMedicines q s = [] := hnil
    rw [hnil2] at hm
    exact hm rfl
  · exact List.filter_subset' s.medicines

/-- C6 witness: a one-store catalog whose single medicine matches yields
one result satisfying the invariants. -/
theorem search_result_invariants_witness :
    (⟨⟨"s1", "StoreA", "Addr", "123", ⟨0, 0⟩,
        [⟨"m1", "Aspirin 500mg", "Acme", "B1", "2030-01-01", 10, 5⟩]⟩,
      [⟨"m1", "Aspirin 500mg", "Acme", "B1", "2030-01-01", 10, 5⟩], 0⟩ :
        SearchResult).distanceMeters ≤
      (⟨"aspirin", ⟨0, 0⟩, 5000⟩ : SearchQuery).maxDistanceMeters ∧
    (⟨⟨"s1", "StoreA", "Addr", "123", ⟨0, 0⟩,
        [⟨"m1", "Aspirin 500mg", "Acme", "B1", "2030-01-01", 10, 5⟩]⟩,
      [⟨"m1", "Aspirin 500mg", "Acme", "B1", "2030-01-01", 10, 5⟩], 0⟩ :
        SearchResult).matchedMedicines ≠ [] ∧
    (⟨⟨"s1", "StoreA", "Addr", "123", ⟨0, 0⟩,
        [⟨"m1", "Aspirin 500mg", "Acme", "B1", "2030-01-01", 10, 5⟩]⟩,
      [⟨"m1", "Aspirin 500mg", "Acme", "B1", "2030-01-01", 10, 5⟩], 0⟩ :
        SearchResult).store ∈
      [(⟨"s1", "StoreA", "Addr", "123", ⟨0, 0⟩,
        [⟨"m1", "Aspirin 500mg", "Acme", "B1", "2030-01-01", 10, 5⟩]⟩ :
          Store)] ∧
    (⟨⟨"s1", "StoreA", "Addr", "123", ⟨0, 0⟩,
        [⟨"m1", "Aspirin 500mg", "Acme", "B1", "2030-01-01", 10, 5⟩]⟩,
      [⟨"m1", "Aspirin 500mg", "Acme", "B1", "2030-01-01", 10, 5⟩], 0⟩ :
        SearchResult).matchedMedicines ⊆
      (⟨⟨"s1", "StoreA", "Addr", "123", ⟨0, 0⟩,
        [⟨"m1", "Aspirin 500mg", "Acme", "B1", "2030-01-01", 10, 5⟩]⟩,
      [⟨"m1", "Aspirin 500mg", "Acme", "B1", "2030-01-01", 10, 5⟩], 0⟩ :
        SearchResult).store.medicines :=
  search_result_invariants (fun _ _ => 0) ⟨"aspirin", ⟨0, 0⟩, 5000⟩
    [⟨"s1", "StoreA", "Addr", "123", ⟨0, 0⟩,
      [⟨"m1", "Aspirin 500mg", "Acme", "B1", "2030-01-01", 10, 5⟩]⟩]
    _ (by decide)

/-- Modelled from the spec: a coordinate over the reals, as consumed by
the geodistance calculator (§4.2). -/
structure GeoPoint where
  latitude : ℝ
  longitude : ℝ

/-- Degrees to radians. -/
noncomputable def toRadians (x : ℝ) : ℝ :=
  x * Real.pi / 180

/-- Modelled from the spec: the Geodistance Calculator (§4.2) — the
back-end calculator is not among the repository sources. Great-circle
distance by the haversine formula against a mean Earth radius of
6,371,000 meters. -/
noncomputable def haversineDistance (a b : GeoPoint) : ℝ :=
  2 * 6371000 *
    Real.arcsin (Real.sqrt (
      Real.sin (toRadians (b.latitude - a.latitude) / 2) ^ 2 +
      Real.cos (toRadians a.latitude) * Real.cos (toRadians b.latitude) *
        Real.sin (toRadians (b.longitude - a.longitude) / 2) ^ 2))

/-- The squared haversine half-angle term is insensitive to the sign of
the coordinate difference. -/
theorem sin_sq_toRadians_swap (x y : ℝ) :
    Real.sin (toRadians (x - y) / 2) ^ 2 =
      Real.sin (toRadians (y - x) / 2) ^ 2 := by
  have h : toRadians (x - y) / 2 = -(toRadians (y - x) / 2) := by
    unfold toRadians
    ring
  rw [h, Real.sin_neg, neg_sq]

/-- C5: the geodistance calculator is symmetric, and identical
coordinates are at distance exactly 0. -/
theorem haversine_symm_and_diag_zero :
    (∀ a b : GeoPoint, haversineDistance a b = haversineDistance b a) ∧
    (∀ a : GeoPoint, haversineDistance a a = 0) := by
  constructor
  · intro a b
    unfold haversineDistance
    rw [sin_sq_toRadians_swap b.latitude a.latitude,
      sin_sq_toRadians_swap b.longitude a.longitude,
      mul_comm (Real.cos (toRadians a.latitude))
        (Real.cos (toRadians b.latitude))]
  · intro a
    unfold haversineDistance toRadians
    simp

/-- Inserting a result into a ranked list keeps, at each fixed distance
value, the inserted element in front only of the elements with that very
distance: elements passed over are strictly closer. -/
theorem filter_orderedInsert_byDistance (x : SearchResult)
    (l : List SearchResult) (d : ℚ) :
    (List.orderedInsert byDistance x l).filter
        (fun r => decide (r.distanceMeters = d)) =
      if x.distanceMeters = d
        then x :: l.filter (fun r => decide (r.distanceMeters = d))
        else l.filter (fun r => decide (r.distanceMeters = d)) := by
  induction l with
  | nil =>
      rw [List.orderedInsert_nil]
      by_cases hxd : x.distanceMeters = d
      · simp [List.filter_cons, hxd]
      · simp [List.filter_cons, hxd]
  | cons y ys ih =>
      rw [List.orderedInsert]
      by_cases hxy : byDistance x y
      · rw [if_pos hxy]
        by_cases hxd : x.distanceMeters = d
        · simp [List.filter_cons, hxd]
        · simp [List.filter_cons, hxd]
      · rw [if_neg hxy]
        have hylt : y.distanceMeters < x.distanceMeters :=
          not_le.mp hxy
        by_cases hxd : x.distanceMeters = d
        · have hyd : y.distanceMeters ≠ d := by
            rw [← hxd]
            exact ne_of_lt hylt
          simp [List.filter_cons, hyd, ih, hxd]
        · by_cases hyd : y.distanceMeters = d
          · simp [List.filter_cons, hyd, ih, hxd]
          · simp [List.filter_cons, hyd, ih, hxd]

/-- The stable insertion sort of the ranker does not reorder results that
share a distance value. -/
theorem filter_insertionSort_byDistance (l : List SearchResult) (d : ℚ) :
    (List.insertionSort byDistance l).filter
        (fun r => decide (r.distanceMeters = d)) =
      l.filter (fun r => decide (r.distanceMeters = d)) := by
  induction l with
  | nil => rfl
  | cons x xs ih =>
      rw [List.insertionSort, filter_orderedInsert_byDistance]
      by_cases hxd : x.distanceMeters = d
      · rw [if_pos hxd, ih]
        simp [List.filter_cons, hxd]
      · rw [if_neg hxd, ih]
        simp [List.filter_cons, hxd]

/-- C7: the search output is sorted non-decreasing by distance, and for
every distance value the results at that distance appear exactly in the
order the orchestrator enumerated their stores from the catalog. -/
theorem search_sorted_and_stable (dist : Coordinate → Coordinate → ℚ)
    (q : SearchQuery) (catalog : List Store) :
    List.Pairwise
      (fun a b : SearchResult => a.distanceMeters ≤ b.distanceMeters)
      (search dist q catalog) ∧
    ∀ d : ℚ,
      (search dist q catalog).filter
          (fun r => decide (r.distanceMeters = d)) =
        (collectResults dist q catalog).filter
          (fun r => decide (r.distanceMeters = d)) := by
  constructor
  · exact List.sorted_insertionSort byDistance (collectResults dist q catalog)
  · intro d
    exact filter_insertionSort_byDistance (collectResults dist q catalog) d

end Core

namespace StoreDetails

/-- The `isExpiringSoon` helper of the store details page: the expiry date is at most
three months from now and still strictly after today. Dates are modelled
as integer timestamps; `threeMonthsFromNow` is the value the page builds
with `setMonth(today.getMonth() + 3)`. -/
def isExpiringSoon (today threeMonthsFromNow expiry : ℤ) : Bool :=
  decide (expiry ≤ threeMonthsFromNow) && decide (today < expiry)

/-- The `isExpired` helper of the store details page: the expiry date is today or
earlier. -/
def isExpired (today expiry : ℤ) : Bool :=
  decide (expiry ≤ today)

/-- The pair of badge conditions rendered for a medicine:
(Expiring Soon shown, Expired shown). -/
def expiryBadges (today threeMonthsFromNow expiry : ℤ) : Bool × Bool :=
  (isExpiringSoon today threeMonthsFromNow expiry, isExpired today expiry)

/-- C10: the two expiry badges are mutually exclusive — an expired
medicine (expiry ≤ today) shows Expired and never Expiring Soon, the
Expired badge shows iff expiry ≤ today, and Expiring Soon shows iff
today < expiry ≤ three months from now. -/
theorem expiry_badges_exclusive (today threeM e : ℤ) :
    ((expiryBadges today threeM e).2 = true →
      (expiryBadges today threeM e).1 = false) ∧
    ((expiryBadges today threeM e).2 = true ↔ e ≤ today) ∧
    ((expiryBadges today threeM e).1 = true ↔ today < e ∧ e ≤ threeM) := by
  refine ⟨?_, ?_, ?_⟩
  · intro h
    have hle : e ≤ today := by
      simpa [expiryBadges, isExpired] using h
    simp [expiryBadges, isExpiringSoon]
    omega
  · simp [expiryBadges, isExpired]
  · simp [expiryBadges, isExpiringSoon, and_comm]

/-- C10 witness: with today = 100 and the three-month mark at 190, a
medicine expired at 50 shows no Expiring Soon badge, and one expiring at
150 shows it precisely because 100 < 150 ≤ 190. -/
theorem expiry_badges_exclusive_witness :
    (expiryBadges 100 190 50).1 = false ∧
    ((expiryBadges 100 190 150).1 = true ↔
      (100 : ℤ) < 150 ∧ (150 : ℤ) ≤ 190) :=
  ⟨(expiry_badges_exclusive 100 190 50).1 (by decide),
    (expiry_badges_exclusive 100 190 150).2.2⟩

end StoreDetails

end MediNexus
